import Mathlib

/-!
Verification of the DB_Genie core: query routing (app/services/query_router.py),
SQL cleanup and dialect rewrite (app/services/sql_agent.py, app/services/database.py),
context assembly and HTTP-level checks (app/api/routes/chat.py), and session
management (app/services/session_manager.py), shallowly embedded in Lean.
External collaborators (completion provider, SQL engine, vector index, charting)
are modelled as oracle parameters; everything else is translated from the source.
-/

namespace DBGenie

/-- Python `needle.isPrefixOf hay` on character lists: first argument is the
needle, second the haystack. -/
def startsWithChars : List Char → List Char → Bool
  | [], _ => true
  | _ :: _, [] => false
  | a :: as, b :: bs => a == b && startsWithChars as bs

/-- Python `needle in hay` (contiguous substring test). -/
def containsSub (hay needle : String) : Bool :=
  (List.range (hay.data.length + 1)).any fun i => startsWithChars needle.data (hay.data.drop i)

/-- Python `str.lower()` restricted to ASCII (all keywords are ASCII). -/
def pyLower (s : String) : String := ⟨s.data.map Char.toLower⟩

/-- Python `str.upper()` restricted to ASCII. -/
def pyUpper (s : String) : String := ⟨s.data.map Char.toUpper⟩

/-- Whitespace characters recognised by Python `str.strip()` / `\s` (ASCII). -/
def isPySpace (c : Char) : Bool :=
  c == ' ' || c == '\t' || c == '\n' || c == '\r' || c == '\x0b' || c == '\x0c'

/-- Python `str.strip()` on a character list. -/
def pyStripChars (l : List Char) : List Char :=
  ((l.dropWhile isPySpace).reverse.dropWhile isPySpace).reverse

/-- Python `str.strip()`. -/
def pyStrip (s : String) : String := ⟨pyStripChars s.data⟩

/-! ## Query router (app/services/query_router.py) -/

/-- The `QueryType` enum of query_router.py. -/
inductive QueryType where
  | VECTOR_SEARCH
  | SQL_QUERY
  | VISUALIZATION
  | HYBRID
  | UNKNOWN
deriving DecidableEq, Repr

/-- `self.sql_keywords` of QueryRouterService. -/
def sqlKeywords : List String :=
  ["how many", "count", "total", "average", "sum", "maximum", "minimum",
   "list all", "show all", "find all", "get all", "employees", "leaves",
   "departments", "records", "calculate", "statistics", "report", "aggregate"]

/-- `self.viz_keywords` of QueryRouterService. -/
def vizKeywords : List String :=
  ["show graph", "show chart", "plot", "visualize", "graph", "chart", "draw",
   "display chart", "trends", "comparison", "distribution", "breakdown", "show me a"]

/-- `self.policy_keywords` of QueryRouterService. -/
def policyKeywords : List String :=
  ["policy", "policies", "document", "guideline", "procedure", "rule",
   "regulation", "handbook", "manual", "what is the policy", "according to",
   "policy states", "policy says"]

/-- `should_visualize` / the `needs_viz` test inside `route_query`:
any visualization keyword is a substring of the lowercased query. -/
def shouldVisualize (q : String) : Bool :=
  vizKeywords.any fun k => containsSub (pyLower q) k

/-- `should_use_sql` / the `is_sql_query` test inside `route_query`. -/
def shouldUseSql (q : String) : Bool :=
  sqlKeywords.any fun k => containsSub (pyLower q) k

/-- The `is_policy_query` test inside `route_query`. -/
def isPolicyQuery (q : String) : Bool :=
  policyKeywords.any fun k => containsSub (pyLower q) k

/-- The dictionary returned by `route_query`.  Confidence values are the
float literals of the source, read as exact rationals. -/
structure RoutingInfo where
  queryType : QueryType
  needsVisualization : Bool
  confidence : ℚ
  reasoning : String
deriving DecidableEq, Repr

/-- `QueryRouterService.route_query`, translated branch for branch from
query_router.py lines 100-156. -/
def routeQuery (query : String) (hasDatabase : Bool) : RoutingInfo :=
  let needsViz := shouldVisualize query
  let isSqlQuery := shouldUseSql query
  let isPolicy := isPolicyQuery query
  if isPolicy && isSqlQuery then
    ⟨QueryType.HYBRID, needsViz, 0.7, "Query mentions both policies and structured data"⟩
  else if isPolicy && !hasDatabase then
    ⟨QueryType.VECTOR_SEARCH, needsViz, 0.9, "Query about policies/documents"⟩
  else if isSqlQuery && hasDatabase then
    ⟨QueryType.SQL_QUERY, needsViz, 0.85, "Query requires structured data from database"⟩
  else if needsViz then
    if hasDatabase then
      ⟨QueryType.VISUALIZATION, needsViz, 0.9, "Query explicitly requests visualization"⟩
    else
      ⟨QueryType.VECTOR_SEARCH, needsViz, 0.6, "Visualization requested but no database available"⟩
  else if hasDatabase then
    ⟨QueryType.SQL_QUERY, needsViz, 0.5, "General query routed to database"⟩
  else
    ⟨QueryType.VECTOR_SEARCH, needsViz, 0.8, "No database available, using document search"⟩

/-! ## SQL cleanup in `query_with_data` (app/services/sql_agent.py, lines 164-168) -/

/-- The six-backtick string that sql_agent.py line 168 removes:
`sql_query.replace(<six backticks>, "")`. -/
def sixBackticks : List Char := ['\x60', '\x60', '\x60', '\x60', '\x60', '\x60']

/-- Python `str.replace(<six backticks>, "")`: remove non-overlapping
occurrences, scanning left to right.  Fuel is the list length; each step
consumes at least one character, so the fuel never runs out. -/
def removeSixBackticks : Nat → List Char → List Char
  | 0, l => l
  | _ + 1, [] => []
  | n + 1, c :: cs =>
    if startsWithChars sixBackticks (c :: cs) then
      removeSixBackticks n ((c :: cs).drop 6)
    else
      c :: removeSixBackticks n cs

/-- The cleanup step of `query_with_data`:
`sql_query.strip()` then `sql_query.replace(<six backticks>, "").strip()`. -/
def cleanSql (raw : String) : String :=
  let stripped := pyStripChars raw.data
  ⟨pyStripChars (removeSixBackticks stripped.length stripped)⟩

/-! ## CONCAT dialect rewrite (app/services/database.py, lines 212-267) -/

/-- `_split_args` of `_transform_concat_to_sqlite`: split an argument string
on commas that are not inside single or double quotes or nested parentheses,
stripping each piece.  Direct port of the Python loop; `args` and `cur`
are the accumulators, `inS`/`inD` the quote flags, `depth` the paren depth. -/
def splitArgsGo : List Char → List Char → Bool → Bool → Int → List (List Char) →
    List (List Char)
  | [], cur, _, _, _, args =>
    if cur.isEmpty then args else args ++ [pyStripChars cur]
  | ch :: rest, cur, inS, inD, depth, args =>
    if ch == '\'' && !inD then
      splitArgsGo rest (cur ++ [ch]) (!inS) inD depth args
    else if ch == '"' && !inS then
      splitArgsGo rest (cur ++ [ch]) inS (!inD) depth args
    else
      let depth' :=
        if ch == '(' && !inS && !inD then depth + 1
        else if ch == ')' && !inS && !inD then depth - 1
        else depth
      if ch == ',' && depth' == 0 && !inS && !inD then
        splitArgsGo rest [] inS inD depth' (args ++ [pyStripChars cur])
      else
        splitArgsGo rest (cur ++ [ch]) inS inD depth' args

/-- `_split_args(argstr)`. -/
def splitArgs (argstr : List Char) : List (List Char) :=
  splitArgsGo argstr [] false false 0 []

/-- `_repl`: join the split arguments with the SQLite concatenation operator
and parenthesize: `"(" + " || ".join(parts) + ")"`. -/
def replConcat (inner : List Char) : List Char :=
  '(' :: (List.intercalate (" || ".data) (splitArgs inner)) ++ [')']

/-- Case-insensitive prefix test (the regex is compiled with IGNORECASE). -/
def startsWithCI : List Char → List Char → Bool
  | [], _ => true
  | _ :: _, [] => false
  | a :: as, b :: bs => a.toLower == b.toLower && startsWithCI as bs

/-- Split a character list at the first `')'`: the lazy group `(.*?)` of the
pattern `CONCAT\s*\((.*?)\)` captures everything before the first closing
parenthesis (DOTALL lets it cross newlines). -/
def splitAtFirstClose : List Char → Option (List Char × List Char)
  | [] => none
  | c :: rest =>
    if c == ')' then some ([], rest)
    else (splitAtFirstClose rest).map fun p => (c :: p.1, p.2)

/-- Try to match the regex `CONCAT\s*\((.*?)\)` at the head of `l`; on
success return the captured group and the remainder after the match. -/
def matchConcatAt (l : List Char) : Option (List Char × List Char) :=
  if startsWithCI "concat".data l then
    match (l.drop 6).dropWhile isPySpace with
    | '(' :: afterParen => splitAtFirstClose afterParen
    | _ => none
  else none

/-- `pattern.sub(_repl, query)`: scan left to right, replacing each match
and resuming after it.  Fuel is the list length; a non-match consumes one
character and a match at least eight, so the fuel never runs out. -/
def concatSubGo : Nat → List Char → List Char
  | 0, l => l
  | _ + 1, [] => []
  | n + 1, c :: cs =>
    match matchConcatAt (c :: cs) with
    | some (inner, rest) => replConcat inner ++ concatSubGo n rest
    | none => c :: concatSubGo n cs

/-- `DatabaseService._transform_concat_to_sqlite`. -/
def transformConcatToSqlite (query : String) : String :=
  ⟨concatSubGo query.data.length query.data⟩

/-! ## Query execution with the single dialect retry
(app/services/database.py, lines 150-210) -/

/-- A result row: the column-name-to-value mapping produced by
`execute_query` (values rendered as strings in this model). -/
abbrev Row := List (String × String)

/-- `DatabaseService.execute_query`, parameterized by the SQL engine
`runSql` (an opaque collaborator; `Except.error msg` models a raised
`OperationalError` with message `msg`).  Besides the result, the returned
list records every statement handed to the engine, in order, so that the
retry discipline is visible.  Mirrors database.py lines 163-206: on an
operational error whose message contains "no such function: CONCAT" (or
whose statement mentions `CONCAT(`), transform and retry exactly once;
a failure of the retry, or any other error, propagates. -/
def executeQueryTraced (runSql : String → Except String (List Row))
    (query : String) : Except String (List Row) × List String :=
  match runSql query with
  | .ok rows => (.ok rows, [query])
  | .error msg =>
    if containsSub msg "no such function: CONCAT" ||
        containsSub (pyUpper query) "CONCAT(" then
      let transformed := transformConcatToSqlite query
      match runSql transformed with
      | .ok rows => (.ok rows, [query, transformed])
      | .error e2 => (.error e2, [query, transformed])
    else
      (.error msg, [query])

/-- The dictionary returned by `SQLAgentService.query_with_data`. -/
structure SqlResult where
  success : Bool
  data : Option (List Row)
  answer : Option String
  sqlQuery : Option String
  error : Option String
deriving DecidableEq, Repr

/-- Python rendering of an optional string in an f-string:
`None` prints as "None". -/
def optStr : Option String → String
  | some s => s
  | none => "None"

/-- `SQLAgentService.query_with_data` (sql_agent.py lines 127-206),
parameterized by the completion provider's two replies (`genSqlResponse`
for the SQL-generation prompt, `genAnswer` for the answer prompt) and the
SQL engine.  The raw provider reply is cleaned by `cleanSql`, executed via
`executeQueryTraced`; any raised error is caught and converted into a
`success = false` record with `data = None`. -/
def queryWithData (runSql : String → Except String (List Row))
    (genSqlResponse genAnswer : String) : SqlResult :=
  let sql := cleanSql genSqlResponse
  match (executeQueryTraced runSql sql).1 with
  | .ok rows =>
    { success := true, data := some rows, answer := some genAnswer,
      sqlQuery := some sql, error := none }
  | .error e =>
    { success := false, data := none, answer := none,
      sqlQuery := none, error := some e }

/-! ## Session manager (app/services/session_manager.py) -/

/-- `SessionManager`: the in-memory `self.sessions` dictionary, modelled
as a total function from session id to an optional message list (`none`
means the key is absent). -/
structure SessionStore (α : Type) where
  sessions : String → Option (List α)

/-- `get_session`: `self.sessions.get(session_id)`. -/
def getSession (s : SessionStore α) (sid : String) : Option (List α) :=
  s.sessions sid

/-- `ensure_session`: create the session with an empty history if absent. -/
def ensureSession (s : SessionStore α) (sid : String) : SessionStore α :=
  match s.sessions sid with
  | some _ => s
  | none => ⟨fun k => if k = sid then some [] else s.sessions k⟩

/-- `add_message`: create the session if absent, then append. -/
def addMessage (s : SessionStore α) (sid : String) (m : α) : SessionStore α :=
  ⟨fun k => if k = sid then some ((s.sessions sid).getD [] ++ [m]) else s.sessions k⟩

/-- `clear_session`: reset the history to `[]`, but only if the key exists. -/
def clearSession (s : SessionStore α) (sid : String) : SessionStore α :=
  match s.sessions sid with
  | some _ => ⟨fun k => if k = sid then some [] else s.sessions k⟩
  | none => s

/-- `delete_session`: remove the key, but only if it exists. -/
def deleteSession (s : SessionStore α) (sid : String) : SessionStore α :=
  match s.sessions sid with
  | some _ => ⟨fun k => if k = sid then none else s.sessions k⟩
  | none => s

/-- An HTTP-level outcome: `.error (status, detail)` models a raised
`HTTPException`, `.ok` the JSON body. -/
abbrev HttpResult (β : Type) := Except (Nat × String) β

/-- `GET /session/{id}/history` (chat.py lines 342-348). -/
def getSessionHistoryEndpoint (s : SessionStore α) (sid : String) :
    HttpResult (String × List α) :=
  match getSession s sid with
  | none => .error (404, "Session not found")
  | some h => .ok (sid, h)

/-- `DELETE /session/{id}` (chat.py lines 351-355): always reports success. -/
def deleteSessionEndpoint (s : SessionStore α) (sid : String) :
    SessionStore α × HttpResult String :=
  (deleteSession s sid, .ok "Session deleted successfully")

/-- `POST /session/{id}/clear` (chat.py lines 358-362): always reports success. -/
def clearSessionEndpoint (s : SessionStore α) (sid : String) :
    SessionStore α × HttpResult String :=
  (clearSession s sid, .ok "Session history cleared successfully")

/-! ## Context assembly (app/api/routes/chat.py, `prepare_messages_async`) -/

/-- A provider-format message (`{"role": ..., "content": ...}`). -/
structure AzureMsg where
  role : String
  content : String
deriving DecidableEq, Repr

/-- The dictionary returned by `VisualizationService.create_visualization`
(that service catches its own exceptions and always returns a dict). -/
structure VizResult where
  success : Bool
  chartType : String
  html : String
  imageBase64 : String
  error : String
deriving DecidableEq, Repr

/-- The dictionary returned by `prepare_messages_async`. -/
structure PrepResult where
  messages : List AzureMsg
  queryType : QueryType
  visualizationData : Option VizResult
  sqlResult : Option SqlResult
  needsVisualization : Bool
deriving DecidableEq, Repr

/-- Python truthiness of `sql_result.get("data")`: present and non-empty. -/
def dataTruthy : Option (List Row) → Bool
  | some (_ :: _) => true
  | _ => false

/-- The fixed system-message preamble of `prepare_messages_async`. -/
def systemContextPreamble : String :=
  "You are a helpful HR assistant. Use the following context to answer the user\x27s question:\n\n"

/-- `prepare_messages_async` (chat.py lines 86-197).  Collaborators appear
as oracles: `vectorSearch` is the awaited result of
`vector_store_service.similarity_search(user_message)` (a list of page
contents, or `.error` for a raised exception), `sqlAgent` is
`sql_agent_service` (`none` when absent) together with the `SqlResult` its
`query_with_data(user_message)` call would return (that method never
raises), and `viz` is what `visualization_service.create_visualization`
would return if called.  `hasDatabase` is `database_service is not None`.
The function returns `.error` exactly when an uncaught exception escapes. -/
def prepareMessagesAsync (vectorSearch : Except String (List String))
    (sqlAgent : Option SqlResult) (viz : VizResult) (hasDatabase : Bool)
    (sessionHistory : List AzureMsg) (userMessage : String) :
    Except String PrepResult :=
  let routing := routeQuery userMessage hasDatabase
  let assembled : Except String (String × Option SqlResult × Option VizResult) :=
    match routing.queryType, sqlAgent with
    | QueryType.VECTOR_SEARCH, _ =>
      vectorSearch.map fun docs => (String.intercalate "\n\n" docs, none, none)
    | QueryType.SQL_QUERY, some r =>
      if r.success then
        .ok ("Database Query Result:\n" ++ optStr r.answer, some r, none)
      else
        .ok ("Database query failed: " ++ optStr r.error, some r, none)
    | QueryType.VISUALIZATION, some r =>
      if r.success && dataTruthy r.data then
        if viz.success then
          .ok ("I\x27ve generated a " ++ viz.chartType ++
            " visualization based on your query.\n\nData summary: " ++ optStr r.answer,
            some r, some viz)
        else
          .ok ("Data retrieved but visualization failed: " ++ viz.error ++
            "\n\nData: " ++ optStr r.answer, some r, none)
      else
        .ok ("Could not retrieve data for visualization: " ++ optStr r.error,
          some r, none)
    | QueryType.HYBRID, _ =>
      vectorSearch.map fun docs =>
        let policyContext := String.intercalate "\n\n" docs
        let sqlContext :=
          match sqlAgent with
          | some r => if r.success then optStr r.answer else ""
          | none => ""
        ("Policy Context:\n" ++ policyContext ++ "\n\nDatabase Information:\n" ++ sqlContext,
          sqlAgent, none)
    | _, _ =>
      vectorSearch.map fun docs => (String.intercalate "\n\n" docs, none, none)
  assembled.map fun res =>
    let contextText := res.1
    let messages :=
      (if contextText = "" then [] else
        [AzureMsg.mk "system" (systemContextPreamble ++ contextText)]) ++
      sessionHistory ++ [AzureMsg.mk "user" userMessage]
    ⟨messages, routing.queryType, res.2.2, res.2.1, routing.needsVisualization⟩

/-! ## Raw-SQL endpoint (app/api/routes/chat.py, `execute_sql_query`) -/

/-- Outcome of the validation in `POST /query/sql`: either a rejection
with an HTTP status (no statement reaches the engine), or the statement
is passed on to `execute_raw_query`. -/
inductive RawSqlOutcome where
  | rejected (status : Nat) (detail : String)
  | executed (sql : String)
deriving DecidableEq, Repr

/-- `dangerous_keywords` of `execute_sql_query` (chat.py line 439). -/
def dangerousKeywords : List String :=
  ["DROP", "DELETE", "TRUNCATE", "ALTER", "UPDATE", "INSERT"]

/-- The validation gate of `execute_sql_query` (chat.py lines 434-453):
missing/empty query → 400; any denylist keyword in the uppercased text →
403; statement whose stripped, uppercased text does not start with
SELECT → 403; otherwise the statement is executed. -/
def executeSqlQueryGate (sqlQuery : Option String) : RawSqlOutcome :=
  match sqlQuery with
  | none => .rejected 400 "Query parameter required"
  | some q =>
    if q = "" then .rejected 400 "Query parameter required"
    else if dangerousKeywords.any (fun k => containsSub (pyUpper q) k) then
      .rejected 403 "Dangerous SQL operations not allowed. Only SELECT queries permitted."
    else if !(startsWithChars "SELECT".data (pyUpper (pyStrip q)).data) then
      .rejected 403 "Only SELECT queries are allowed in this endpoint."
    else
      .executed q


/-! ## Concrete collaborator fixtures used by witnesses -/

/-- An SQL engine for the C4 witness: it rejects any statement mentioning
`CONCAT(` with the SQLite unknown-function message, and fails on everything
else with a different message. -/
def sqliteEngineStub : String → Except String (List Row) := fun s =>
  if containsSub (pyUpper s) "CONCAT(" then .error "no such function: CONCAT"
  else .error "retry failed"

/-- A failed SQL-agent result used by the C5 witness. -/
def sqlFailStub : SqlResult := ⟨false, none, none, none, some "db down"⟩

/-- A successful SQL-agent result with one data row, for the C5 witness. -/
def sqlOkStub : SqlResult :=
  ⟨true, some [[("department", "Engineering")]], some "answer text", some "SELECT 1", none⟩

/-- A failed chart-generation result, for the C5 witness. -/
def vizFailStub : VizResult := ⟨false, "", "", "", "chart lib crashed"⟩

/-- A successful chart-generation result, for the C9 witness. -/
def vizOkStub : VizResult := ⟨true, "bar", "", "imgdata", ""⟩

/-- The bundle produced on the C9 witness run. -/
def c9Bundle : PrepResult :=
  ⟨[AzureMsg.mk "system"
      (systemContextPreamble ++
        ("I\x27ve generated a " ++ vizOkStub.chartType ++
          " visualization based on your query.\n\nData summary: " ++
          optStr sqlOkStub.answer)),
    AzureMsg.mk "user" "plot"],
    QueryType.VISUALIZATION, some vizOkStub, some sqlOkStub, true⟩

/-- A character that is inert for the CONCAT rewrite: not a quote, not a
parenthesis, not a comma, not whitespace. -/
def plainChar (c : Char) : Bool :=
  !(c == '\'') && !(c == '"') && !(c == '(') && !(c == ')') && !(c == ',') && !(isPySpace c)

/-! ## Helper lemmas -/

/-- String concatenation acts on the underlying character lists. -/
theorem data_append (s t : String) : (s ++ t).data = s.data ++ t.data := by
  cases s; cases t; rfl

/-- A string is nonempty exactly when its character list is. -/
theorem ne_empty_iff_data (s : String) : s ≠ "" ↔ s.data ≠ [] := by
  cases s with
  | mk l =>
    constructor
    · intro h hx
      exact h (by simpa using congrArg String.mk hx)
    · intro h hx
      exact h (congrArg String.data hx)

/-- Concatenating onto a nonempty string stays nonempty. -/
theorem append_ne_empty_left (s t : String) (h : s ≠ "") : s ++ t ≠ "" := by
  rw [ne_empty_iff_data] at h ⊢
  rw [data_append]
  exact fun hx => h (List.append_eq_nil.mp hx).1

/-! ### Lemmas about the CONCAT rewrite on statements with inert arguments -/

theorem plain_bools {c : Char} (h : plainChar c = true) :
    (c == '\'') = false ∧ (c == '"') = false ∧ (c == '(') = false ∧
    (c == ')') = false ∧ (c == ',') = false ∧ isPySpace c = false := by
  simp only [plainChar, Bool.and_eq_true, Bool.not_eq_true'] at h
  exact ⟨h.1.1.1.1.1, h.1.1.1.1.2, h.1.1.1.2, h.1.1.2, h.1.2, h.2⟩

theorem plain_not_close {c : Char} (h : plainChar c = true) : (c == ')') = false :=
  (plain_bools h).2.2.2.1

theorem dropWhile_eq_self_of_forall {p : Char → Bool} :
    ∀ (l : List Char), (∀ c ∈ l, p c = false) → l.dropWhile p = l
  | [], _ => rfl
  | c :: cs, h => by
    simp [List.dropWhile, h c (List.mem_cons_self c cs)]

theorem pyStripChars_eq_self (l : List Char) (h : ∀ c ∈ l, isPySpace c = false) :
    pyStripChars l = l := by
  unfold pyStripChars
  rw [dropWhile_eq_self_of_forall l h]
  rw [dropWhile_eq_self_of_forall l.reverse (fun c hc => h c (List.mem_reverse.mp hc))]
  exact List.reverse_reverse l

theorem plain_not_space {c : Char} (h : plainChar c = true) : isPySpace c = false :=
  (plain_bools h).2.2.2.2.2

theorem splitArgsGo_plain :
    ∀ (a rest cur : List Char) (args : List (List Char)),
      (∀ c ∈ a, plainChar c = true) →
      splitArgsGo (a ++ rest) cur false false 0 args =
        splitArgsGo rest (cur ++ a) false false 0 args
  | [], rest, cur, args, _ => by simp
  | c :: a, rest, cur, args, h => by
    have hc := plain_bools (h c (List.mem_cons_self c a))
    have ih := splitArgsGo_plain a rest (cur ++ [c]) args
      (fun x hx => h x (List.mem_cons_of_mem c hx))
    simp [splitArgsGo, hc.1, hc.2.1, hc.2.2.1, hc.2.2.2.1, hc.2.2.2.2.1]
    rw [ih]
    simp

theorem splitAtFirstClose_append :
    ∀ (xs tail : List Char), (∀ c ∈ xs, (c == ')') = false) →
      splitAtFirstClose (xs ++ ')' :: tail) = some (xs, tail)
  | [], tail, _ => rfl
  | c :: xs, tail, h => by
    have hc := h c (List.mem_cons_self c xs)
    simp [splitAtFirstClose, hc]
    exact splitAtFirstClose_append xs tail (fun x hx => h x (List.mem_cons_of_mem c hx))

theorem concatSubGo_nil : ∀ n, concatSubGo n [] = []
  | 0 => rfl
  | _ + 1 => rfl

theorem concatSubGo_skip (n : Nat) (c : Char) (cs : List Char)
    (h : matchConcatAt (c :: cs) = none) :
    concatSubGo (n + 1) (c :: cs) = c :: concatSubGo n cs := by
  simp [concatSubGo, h]

theorem concatSubGo_match (n : Nat) (l inner rest' : List Char)
    (h : matchConcatAt l = some (inner, rest')) :
    concatSubGo (n + 1) l = replConcat inner ++ concatSubGo n rest' := by
  cases l with
  | nil => simp [matchConcatAt, startsWithCI] at h
  | cons c cs => simp [concatSubGo, h]

theorem concatSubGo_advance :
    ∀ (pre : List Char) (n : Nat) (rest : List Char),
      (∀ i, i < pre.length → matchConcatAt (pre.drop i ++ rest) = none) →
      concatSubGo (pre.length + n) (pre ++ rest) = pre ++ concatSubGo n rest
  | [], n, rest, _ => by simp
  | c :: pre, n, rest, h => by
    have h0 : matchConcatAt (c :: (pre ++ rest)) = none := by
      have := h 0 (by simp)
      simpa using this
    have hlen : (c :: pre).length + n = (pre.length + n) + 1 := by
      simp [List.length_cons]; omega
    rw [hlen]
    have hstep := concatSubGo_skip (pre.length + n) c (pre ++ rest) h0
    simp only [List.cons_append]
    rw [hstep]
    rw [concatSubGo_advance pre n rest (fun i hi => by
      have := h (i + 1) (by simp [List.length_cons]; omega)
      simpa using this)]

theorem transform_concat_select (a b : List Char)
    (ha : ∀ c ∈ a, plainChar c = true) (hb : ∀ c ∈ b, plainChar c = true) :
    transformConcatToSqlite ⟨"SELECT CONCAT(".data ++ a ++ ", ' ', ".data ++ b ++ [')']⟩ =
      ⟨"SELECT (".data ++ a ++ " || ' ' || ".data ++ b ++ [')']⟩ := by
  have hbspace : ∀ c ∈ b, isPySpace c = false := fun c hc => plain_not_space (hb c hc)
  have haspace : ∀ c ∈ a, isPySpace c = false := fun c hc => plain_not_space (ha c hc)
  have hsplit : splitArgs (a ++ (", ' ', ".data ++ b)) = [a, ['\'', ' ', '\''], b] := by
    have h1 : splitArgsGo (a ++ (", ' ', ".data ++ b)) [] false false 0 [] =
        splitArgsGo (", ' ', ".data ++ b) a false false 0 [] := by
      have := splitArgsGo_plain a (", ' ', ".data ++ b) [] [] ha
      simpa using this
    have h3 : splitArgsGo b [' '] false false 0 [pyStripChars a, ['\'', ' ', '\'']] =
        splitArgsGo [] (' ' :: b) false false 0 [pyStripChars a, ['\'', ' ', '\'']] := by
      have := splitArgsGo_plain b [] [' '] [pyStripChars a, ['\'', ' ', '\'']] hb
      rw [List.append_nil] at this
      simpa using this
    calc splitArgs (a ++ (", ' ', ".data ++ b))
        = splitArgsGo (", ' ', ".data ++ b) a false false 0 [] := h1
      _ = splitArgsGo b [' '] false false 0 [pyStripChars a, ['\'', ' ', '\'']] := rfl
      _ = splitArgsGo [] (' ' :: b) false false 0 [pyStripChars a, ['\'', ' ', '\'']] := h3
      _ = [pyStripChars a, ['\'', ' ', '\'']] ++ [pyStripChars (' ' :: b)] := rfl
      _ = [a, ['\'', ' ', '\''], b] := by
          have hsa : pyStripChars a = a := pyStripChars_eq_self a haspace
          have hsb : pyStripChars (' ' :: b) = b := by
            have : pyStripChars (' ' :: b) = pyStripChars b := rfl
            rw [this, pyStripChars_eq_self b hbspace]
          rw [hsa, hsb]
          rfl
  have hclose : ∀ c ∈ (a ++ (", ' ', ".data ++ b)), (c == ')') = false := by
    intro c hc
    rcases List.mem_append.mp hc with h | h
    · exact plain_not_close (ha c h)
    · rcases List.mem_append.mp h with h | h
      · have hm : (", ' ', ".data) = [',', ' ', '\'', ' ', '\'', ',', ' '] := rfl
        rw [hm] at h
        fin_cases h <;> rfl
      · exact plain_not_close (hb c h)
  have hmatch : matchConcatAt ("CONCAT(".data ++ (a ++ (", ' ', ".data ++ (b ++ [')'])))) =
      some (a ++ (", ' ', ".data ++ b), []) := by
    have hCI : startsWithCI "concat".data
        ("CONCAT(".data ++ (a ++ (", ' ', ".data ++ (b ++ [')'])))) = true := rfl
    simp only [matchConcatAt, hCI, if_true]
    have hdrop : ((("CONCAT(".data ++ (a ++ (", ' ', ".data ++ (b ++ [')'])))).drop 6).dropWhile isPySpace)
        = '(' :: (a ++ (", ' ', ".data ++ (b ++ [')']))) := rfl
    rw [hdrop]
    show splitAtFirstClose (a ++ (", ' ', ".data ++ (b ++ [')']))) =
      some (a ++ (", ' ', ".data ++ b), [])
    have hre : a ++ (", ' ', ".data ++ (b ++ [')'])) =
        (a ++ (", ' ', ".data ++ b)) ++ ')' :: [] := by
      simp [List.append_assoc]
    rw [hre]
    exact splitAtFirstClose_append _ _ hclose
  have hskip : ∀ i, i < ("SELECT ".data).length →
      matchConcatAt (("SELECT ".data).drop i ++
        ("CONCAT(".data ++ (a ++ (", ' ', ".data ++ (b ++ [')']))))) = none := by
    intro i hi
    have h7 : ("SELECT ".data).length = 7 := rfl
    rw [h7] at hi
    interval_cases i <;> rfl
  show String.mk (concatSubGo
      ("SELECT CONCAT(".data ++ a ++ ", ' ', ".data ++ b ++ [')']).length
      ("SELECT CONCAT(".data ++ a ++ ", ' ', ".data ++ b ++ [')'])) =
    String.mk ("SELECT (".data ++ a ++ " || ' ' || ".data ++ b ++ [')'])
  have hD : "SELECT CONCAT(".data ++ a ++ ", ' ', ".data ++ b ++ [')'] =
      "SELECT ".data ++ ("CONCAT(".data ++ (a ++ (", ' ', ".data ++ (b ++ [')'])))) := by
    simp [List.append_assoc]
  rw [hD]
  have hlen : ("SELECT ".data ++ ("CONCAT(".data ++ (a ++ (", ' ', ".data ++ (b ++ [')']))))).length
      = ("SELECT ".data).length +
        ("CONCAT(".data ++ (a ++ (", ' ', ".data ++ (b ++ [')'])))).length := by
    simp [List.length_append]
    omega
  rw [hlen, concatSubGo_advance "SELECT ".data _ _ hskip]
  have hlen2 : ("CONCAT(".data ++ (a ++ (", ' ', ".data ++ (b ++ [')'])))).length =
      (("CONCAT(".data ++ (a ++ (", ' ', ".data ++ (b ++ [')'])))).length - 1) + 1 := by
    have hpos : 0 < ("CONCAT(".data ++ (a ++ (", ' ', ".data ++ (b ++ [')'])))).length := by
      simp [List.length_append]
    omega
  rw [hlen2, concatSubGo_match _ _ _ _ hmatch, concatSubGo_nil, List.append_nil]
  simp only [replConcat]
  rw [hsplit]
  have hI : List.intercalate (" || ".data) [a, ['\'', ' ', '\''], b] =
      a ++ (" || ".data ++ (['\'', ' ', '\''] ++ (" || ".data ++ (b ++ [])))) := rfl
  rw [hI]
  simp [List.append_assoc]

/-! ## Theorems for the claims -/

/-- C7: a query containing (case-insensitively, as substrings of the
lowercased text) both a policy keyword and an SQL keyword is routed to
HYBRID with confidence 0.7, for either value of has_database. -/
theorem C7_hybrid_rule (q : String) (hasDb : Bool)
    (hpol : isPolicyQuery q = true) (hsql : shouldUseSql q = true) :
    routeQuery q hasDb =
      ⟨QueryType.HYBRID, shouldVisualize q, 0.7,
        "Query mentions both policies and structured data"⟩ := by
  simp [routeQuery, hpol, hsql]

/-- C7 witness: concrete mixed-case query containing the policy keyword
"policy" and the SQL keyword "count". -/
theorem C7_hybrid_rule_witness :
    isPolicyQuery "COUNT the Policy documents" = true ∧
    shouldUseSql "COUNT the Policy documents" = true ∧
    routeQuery "COUNT the Policy documents" true =
      ⟨QueryType.HYBRID, shouldVisualize "COUNT the Policy documents", 0.7,
        "Query mentions both policies and structured data"⟩ :=
  ⟨by decide, by decide, C7_hybrid_rule "COUNT the Policy documents" true (by decide) (by decide)⟩

/-- C1 counterexample: "plot how many employees" contains the visualization
keyword "plot" and has_database = true, yet is routed to SQL_QUERY (the SQL
rule precedes the visualization rule); and even when the visualization rule
does fire ("plot"), the confidence is 0.9, not 0.95. -/
theorem C1_viz_priority_cex :
    shouldVisualize "plot how many employees" = true ∧
    (routeQuery "plot how many employees" true).queryType = QueryType.SQL_QUERY ∧
    shouldVisualize "plot" = true ∧
    routeQuery "plot" true =
      ⟨QueryType.VISUALIZATION, true, 0.9, "Query explicitly requests visualization"⟩ ∧
    (0.9 : ℚ) ≠ 0.95 :=
  ⟨by decide, by decide, by decide, rfl, by norm_num⟩

/-- C1 amended: a query containing a visualization keyword with
has_database = true is routed to VISUALIZATION exactly when it contains no
SQL keyword (policy keywords do not interfere, since with a database the
hybrid rule needs an SQL keyword and the policy rule needs no database),
and then with confidence 0.9, not 0.95; the visualization rule is
evaluated after the hybrid, policy and SQL rules, so an SQL keyword in the
query takes precedence. -/
theorem C1_viz_rule_amended (q : String)
    (hviz : shouldVisualize q = true) (hsql : shouldUseSql q = false) :
    routeQuery q true =
      ⟨QueryType.VISUALIZATION, true, 0.9, "Query explicitly requests visualization"⟩ := by
  simp [routeQuery, hviz, hsql]

/-- C1 witness: the query "plot the policy", which carries a policy
keyword besides the visualization keyword and is still routed to
VISUALIZATION. -/
theorem C1_viz_rule_amended_witness :
    shouldVisualize "plot the policy" = true ∧
    shouldUseSql "plot the policy" = false ∧
    isPolicyQuery "plot the policy" = true ∧
    routeQuery "plot the policy" true =
      ⟨QueryType.VISUALIZATION, true, 0.9, "Query explicitly requests visualization"⟩ :=
  ⟨by decide, by decide, by decide,
    C1_viz_rule_amended "plot the policy" (by decide) (by decide)⟩

/-- C6 counterexample: "policy" is a policy-keyword query with no SQL
keyword, but with has_database = true it is routed to SQL_QUERY with
confidence 0.5 (the policy rule only fires when no database is available),
not to VECTOR_SEARCH with confidence 0.9. -/
theorem C6_policy_with_db_cex :
    isPolicyQuery "policy" = true ∧
    shouldUseSql "policy" = false ∧
    routeQuery "policy" true =
      ⟨QueryType.SQL_QUERY, false, 0.5, "General query routed to database"⟩ ∧
    QueryType.SQL_QUERY ≠ QueryType.VECTOR_SEARCH ∧
    (0.5 : ℚ) ≠ 0.9 :=
  ⟨by decide, by decide, rfl, by decide, by norm_num⟩

/-- C6 amended: a query containing a policy keyword and no SQL keyword is
routed to VECTOR_SEARCH with confidence 0.9 only when has_database = false;
with has_database = true (and no visualization keyword) it is routed to
SQL_QUERY with confidence 0.5. -/
theorem C6_policy_rule_amended (q : String)
    (hpol : isPolicyQuery q = true) (hsql : shouldUseSql q = false) :
    routeQuery q false =
      ⟨QueryType.VECTOR_SEARCH, shouldVisualize q, 0.9, "Query about policies/documents"⟩ ∧
    (shouldVisualize q = false →
      routeQuery q true =
        ⟨QueryType.SQL_QUERY, false, 0.5, "General query routed to database"⟩) := by
  constructor
  · simp [routeQuery, hpol, hsql]
  · intro hviz
    simp [routeQuery, hpol, hsql, hviz]

/-- C6 witness: the query "policy". -/
theorem C6_policy_rule_amended_witness :
    isPolicyQuery "policy" = true ∧ shouldUseSql "policy" = false ∧
    (routeQuery "policy" false =
      ⟨QueryType.VECTOR_SEARCH, shouldVisualize "policy", 0.9, "Query about policies/documents"⟩ ∧
    (shouldVisualize "policy" = false →
      routeQuery "policy" true =
        ⟨QueryType.SQL_QUERY, false, 0.5, "General query routed to database"⟩)) :=
  ⟨by decide, by decide, C6_policy_rule_amended "policy" (by decide) (by decide)⟩

/-- C2: the cleanup step of `query_with_data` only deletes runs of six
consecutive backticks, so a completion reply wrapped in a standard
three-backtick markdown fence passes through unchanged and the resulting
SQL string still begins with three backticks, contradicting the documented
fence-stripping intent.  (A literal six-backtick run is removed.) -/
theorem C2_fence_not_stripped :
    cleanSql "\x60\x60\x60sql\nSELECT 1\n\x60\x60\x60" =
      "\x60\x60\x60sql\nSELECT 1\n\x60\x60\x60" ∧
    startsWithChars "\x60\x60\x60".data
      (cleanSql "\x60\x60\x60sql\nSELECT 1\n\x60\x60\x60").data = true ∧
    cleanSql "\x60\x60\x60\x60\x60\x60SELECT 1\x60\x60\x60\x60\x60\x60" = "SELECT 1" :=
  ⟨rfl, by decide, rfl⟩

/-- C3 counterexample: the rewrite matches `CONCAT(` only up to the first
closing parenthesis, so a nested function call inside an argument is not
rewritten into the `||`-joined form: `CONCAT(UPPER(a), b)` becomes
`(UPPER(a), b)`, not `(UPPER(a) || b)`. -/
theorem C3_nested_paren_cex :
    transformConcatToSqlite "SELECT CONCAT(UPPER(a), b) FROM t" =
      "SELECT (UPPER(a), b) FROM t" ∧
    "SELECT (UPPER(a), b) FROM t" ≠ "SELECT (UPPER(a) || b) FROM t" :=
  ⟨rfl, by decide⟩

/-- C3 amended: for any two arguments made of inert characters (no
parentheses, quotes, commas or whitespace), the rewrite turns
`SELECT CONCAT(a, ' ', b)` into `SELECT (a || ' ' || b)`; concrete
instances show top-level comma splitting, a quoted literal containing a
comma staying unsplit, and case-insensitive matching.  An argument
containing nested parentheses, however, stops the match at the first
closing parenthesis and is mangled instead of joined (see the
counterexample). -/
theorem C3_concat_rewrite_amended :
    (∀ a b : List Char,
      (∀ c ∈ a, plainChar c = true) → (∀ c ∈ b, plainChar c = true) →
      transformConcatToSqlite ⟨"SELECT CONCAT(".data ++ a ++ ", ' ', ".data ++ b ++ [')']⟩ =
        ⟨"SELECT (".data ++ a ++ " || ' ' || ".data ++ b ++ [')']⟩) ∧
    transformConcatToSqlite "CONCAT(a, ' ', b)" = "(a || ' ' || b)" ∧
    transformConcatToSqlite "SELECT CONCAT(a, ', ', b) FROM t" =
      "SELECT (a || ', ' || b) FROM t" ∧
    transformConcatToSqlite "SELECT CONCAT(a, b, c) FROM t" =
      "SELECT (a || b || c) FROM t" ∧
    transformConcatToSqlite "SELECT concat(x, '-', y) AS full FROM t WHERE id = 1" =
      "SELECT (x || '-' || y) AS full FROM t WHERE id = 1" :=
  ⟨fun a b ha hb => transform_concat_select a b ha hb, rfl, rfl, rfl, rfl⟩

/-- C3 witness: the general part instantiated at the column names
`first_name` and `last_name`. -/
theorem C3_concat_rewrite_amended_witness :
    transformConcatToSqlite
        ⟨"SELECT CONCAT(".data ++ "first_name".data ++ ", ' ', ".data ++
          "last_name".data ++ [')']⟩ =
      ⟨"SELECT (".data ++ "first_name".data ++ " || ' ' || ".data ++
        "last_name".data ++ [')']⟩ :=
  C3_concat_rewrite_amended.1 "first_name".data "last_name".data (by decide) (by decide)

/-- C4: when execution of the cleaned statement raises an error whose
message contains "no such function: CONCAT", the adapter hands the engine
exactly the original statement followed by its CONCAT rewrite (one retry,
no more); if the retry also fails, `query_with_data` catches the error and
returns success = false, data = None and a populated error field. -/
theorem C4_concat_retry_once
    (runSql : String → Except String (List Row))
    (rawSql genAnswer msg e2 : String)
    (h1 : runSql (cleanSql rawSql) = .error msg)
    (h2 : containsSub msg "no such function: CONCAT" = true)
    (h3 : runSql (transformConcatToSqlite (cleanSql rawSql)) = .error e2)
    (h4 : e2 ≠ "") :
    (executeQueryTraced runSql (cleanSql rawSql)).2 =
      [cleanSql rawSql, transformConcatToSqlite (cleanSql rawSql)] ∧
    queryWithData runSql rawSql genAnswer =
      { success := false, data := none, answer := none,
        sqlQuery := none, error := some e2 } ∧
    e2 ≠ "" := by
  refine ⟨?_, ?_, h4⟩
  · simp [executeQueryTraced, h1, h2, h3]
  · simp [queryWithData, executeQueryTraced, h1, h2, h3]


/-- C4 witness: a concrete statement whose execution and retry both fail. -/
theorem C4_concat_retry_once_witness :
    (executeQueryTraced sqliteEngineStub (cleanSql "SELECT CONCAT(a, b) FROM t")).2 =
      [cleanSql "SELECT CONCAT(a, b) FROM t",
        transformConcatToSqlite (cleanSql "SELECT CONCAT(a, b) FROM t")] ∧
    queryWithData sqliteEngineStub "SELECT CONCAT(a, b) FROM t" "two columns" =
      { success := false, data := none, answer := none,
        sqlQuery := none, error := some "retry failed" } ∧
    "retry failed" ≠ "" :=
  C4_concat_retry_once sqliteEngineStub "SELECT CONCAT(a, b) FROM t" "two columns"
    "no such function: CONCAT" "retry failed" rfl (by decide) rfl (by decide)

/-- C8: the raw-SQL endpoint rejects with 403 any statement whose
uppercased text contains a denylist keyword, never executes a statement
whose stripped uppercased text does not start with SELECT, and on the
three exemplar statements rejects the two dangerous ones and executes the
plain SELECT. -/
theorem C8_raw_sql_gate :
    (∀ q kw, kw ∈ dangerousKeywords → containsSub (pyUpper q) kw = true →
      executeSqlQueryGate (some q) =
        .rejected 403 "Dangerous SQL operations not allowed. Only SELECT queries permitted.") ∧
    (∀ q, startsWithChars "SELECT".data (pyUpper (pyStrip q)).data = false →
      ∀ s, executeSqlQueryGate (some q) ≠ .executed s) ∧
    executeSqlQueryGate (some "DROP TABLE employees") =
      .rejected 403 "Dangerous SQL operations not allowed. Only SELECT queries permitted." ∧
    executeSqlQueryGate (some "SELECT * FROM employees; DELETE FROM employees") =
      .rejected 403 "Dangerous SQL operations not allowed. Only SELECT queries permitted." ∧
    executeSqlQueryGate (some "SELECT first_name FROM employees LIMIT 5") =
      .executed "SELECT first_name FROM employees LIMIT 5" := by
  refine ⟨?_, ?_, rfl, rfl, rfl⟩
  · intro q kw hmem hsub
    have hq : q ≠ "" := by
      intro hq
      subst hq
      fin_cases hmem <;> simp [containsSub, pyUpper, startsWithChars] at hsub
    have hany : dangerousKeywords.any (fun k => containsSub (pyUpper q) k) = true :=
      List.any_eq_true.mpr ⟨kw, hmem, hsub⟩
    simp [executeSqlQueryGate, hq, hany]
  · intro q hsel s
    by_cases hq : q = ""
    · subst hq; simp [executeSqlQueryGate]
    · by_cases hdang : dangerousKeywords.any (fun k => containsSub (pyUpper q) k) = true
      · simp [executeSqlQueryGate, hq, hdang]
      · simp [executeSqlQueryGate, hq, hdang, hsel]

/-- C8 witness: concrete discharges for both universally quantified parts. -/
theorem C8_raw_sql_gate_witness :
    ("DROP" ∈ dangerousKeywords ∧
      containsSub (pyUpper "DROP TABLE employees") "DROP" = true ∧
      executeSqlQueryGate (some "DROP TABLE employees") =
        .rejected 403 "Dangerous SQL operations not allowed. Only SELECT queries permitted.") ∧
    (startsWithChars "SELECT".data (pyUpper (pyStrip "EXPLAIN QUERY PLAN SELECT 1")).data = false ∧
      executeSqlQueryGate (some "EXPLAIN QUERY PLAN SELECT 1") ≠
        .executed "EXPLAIN QUERY PLAN SELECT 1") :=
  ⟨⟨by decide, by decide,
      C8_raw_sql_gate.1 "DROP TABLE employees" "DROP" (by decide) (by decide)⟩,
    ⟨by decide,
      C8_raw_sql_gate.2.1 "EXPLAIN QUERY PLAN SELECT 1" (by decide)
        "EXPLAIN QUERY PLAN SELECT 1"⟩⟩

/-- Appending messages one at a time extends an existing history in order. -/
theorem addMessage_foldl {α : Type} (sid : String) (ms : List α) :
    ∀ (s : SessionStore α) (xs : List α), s.sessions sid = some xs →
      ((ms.foldl (fun st x => addMessage st sid x) s).sessions sid) = some (xs ++ ms) := by
  induction ms with
  | nil => intro s xs h; simpa using h
  | cons m ms ih =>
    intro s xs h
    have hstep : (addMessage s sid m).sessions sid = some (xs ++ [m]) := by
      simp [addMessage, h]
    have := ih (addMessage s sid m) (xs ++ [m]) hstep
    simpa [List.append_assoc] using this

/-- C10: on a session id that was never created, add_message silently
creates the session and appends (a subsequent get_session returns exactly
the appended messages in order); clear_session and delete_session are
no-ops whose endpoints still report success; and reading the history is
the one operation reported as an error (404). -/
theorem C10_session_ops_unknown_id {α : Type} (s : SessionStore α)
    (sid : String) (m : α) (ms : List α) (h : s.sessions sid = none) :
    getSession ((m :: ms).foldl (fun st x => addMessage st sid x) s) sid = some (m :: ms) ∧
    clearSession s sid = s ∧
    deleteSession s sid = s ∧
    (clearSessionEndpoint s sid).2 = .ok "Session history cleared successfully" ∧
    (deleteSessionEndpoint s sid).2 = .ok "Session deleted successfully" ∧
    getSessionHistoryEndpoint s sid = .error (404, "Session not found") := by
  refine ⟨?_, ?_, ?_, rfl, rfl, ?_⟩
  · have hstep : (addMessage s sid m).sessions sid = some [m] := by
      simp [addMessage, h]
    have := addMessage_foldl sid ms (addMessage s sid m) [m] hstep
    simpa [getSession] using this
  · simp [clearSession, h]
  · simp [deleteSession, h]
  · simp [getSessionHistoryEndpoint, getSession, h]

/-- C10 witness: the empty store and a fresh session id. -/
theorem C10_session_ops_unknown_id_witness :
    getSession ((["hello", "there"] : List String).foldl
        (fun st x => addMessage st "abc" x) ⟨fun _ => none⟩) "abc" = some ["hello", "there"] ∧
    clearSession (⟨fun _ => none⟩ : SessionStore String) "abc" = ⟨fun _ => none⟩ ∧
    deleteSession (⟨fun _ => none⟩ : SessionStore String) "abc" = ⟨fun _ => none⟩ ∧
    (clearSessionEndpoint (⟨fun _ => none⟩ : SessionStore String) "abc").2 =
      .ok "Session history cleared successfully" ∧
    (deleteSessionEndpoint (⟨fun _ => none⟩ : SessionStore String) "abc").2 =
      .ok "Session deleted successfully" ∧
    getSessionHistoryEndpoint (⟨fun _ => none⟩ : SessionStore String) "abc" =
      .error (404, "Session not found") :=
  C10_session_ops_unknown_id ⟨fun _ => none⟩ "abc" "hello" ["there"] rfl

set_option maxRecDepth 100000 in
/-- C5 counterexample: (i) for the DocumentSearch-routed query "policy"
(no database), an exception raised by the vector store escapes
`prepare_messages_async` unhandled; (ii) for a Hybrid-routed query whose
SQL call fails with "db down", the assembled context replaces the failure
with an empty Database Information section: the error text appears nowhere
in the produced system message, so the failure is silently dropped. -/
theorem C5_assembly_failures_cex :
    prepareMessagesAsync (.error "vector store down") none
      ⟨false, "", "", "", ""⟩ false [] "policy" = .error "vector store down" ∧
    prepareMessagesAsync (.ok ["docA"])
      (some ⟨false, none, none, none, some "db down"⟩)
      ⟨false, "", "", "", ""⟩ true [] "how many employees does the policy cover" =
      .ok ⟨[AzureMsg.mk "system"
            (systemContextPreamble ++ "Policy Context:\ndocA\n\nDatabase Information:\n"),
          AzureMsg.mk "user" "how many employees does the policy cover"],
        QueryType.HYBRID, none, some ⟨false, none, none, none, some "db down"⟩, false⟩ ∧
    containsSub (systemContextPreamble ++ "Policy Context:\ndocA\n\nDatabase Information:\n")
      "db down" = false :=
  ⟨rfl, rfl, by decide⟩

/-- C5 amended: with a database present, SQL-agent failures are absorbed
into explanatory context text — a failed DatabaseQuery yields a system
message reporting "Database query failed: <error>", and in the
Visualization branch a failed or dataless SQL call, or a failed chart
generation, likewise yields explanatory text — but document-search
exceptions still propagate out of assembly, and a Hybrid-branch SQL
failure is dropped (see the counterexample). -/
theorem C5_assembly_amended (vs : Except String (List String)) (viz : VizResult)
    (hist : List AzureMsg) (q : String) (r : SqlResult) (e : String) :
    ((routeQuery q true).queryType = QueryType.SQL_QUERY → r.success = false →
      r.error = some e →
      prepareMessagesAsync vs (some r) viz true hist q =
        .ok ⟨AzureMsg.mk "system"
              (systemContextPreamble ++ ("Database query failed: " ++ e)) ::
            (hist ++ [AzureMsg.mk "user" q]), QueryType.SQL_QUERY, none, some r,
            (routeQuery q true).needsVisualization⟩) ∧
    ((routeQuery q true).queryType = QueryType.VISUALIZATION → r.success = false →
      r.error = some e →
      prepareMessagesAsync vs (some r) viz true hist q =
        .ok ⟨AzureMsg.mk "system"
              (systemContextPreamble ++ ("Could not retrieve data for visualization: " ++ e)) ::
            (hist ++ [AzureMsg.mk "user" q]), QueryType.VISUALIZATION, none, some r,
            (routeQuery q true).needsVisualization⟩) ∧
    ((routeQuery q true).queryType = QueryType.VISUALIZATION → r.success = true →
      dataTruthy r.data = true → viz.success = false →
      prepareMessagesAsync vs (some r) viz true hist q =
        .ok ⟨AzureMsg.mk "system"
              (systemContextPreamble ++
                ("Data retrieved but visualization failed: " ++ viz.error ++
                  "\n\nData: " ++ optStr r.answer)) ::
            (hist ++ [AzureMsg.mk "user" q]), QueryType.VISUALIZATION, none, some r,
            (routeQuery q true).needsVisualization⟩) := by
  refine ⟨?_, ?_, ?_⟩
  · intro hqt hs he
    have hne : ("Database query failed: " ++ e) ≠ "" :=
      append_ne_empty_left _ _ (by decide)
    simp [prepareMessagesAsync, hqt, hs, he, optStr, Except.map, hne]
  · intro hqt hs he
    have hne : ("Could not retrieve data for visualization: " ++ e) ≠ "" :=
      append_ne_empty_left _ _ (by decide)
    simp [prepareMessagesAsync, hqt, hs, he, optStr, Except.map, hne]
  · intro hqt hs hd hv
    have hne : ("Data retrieved but visualization failed: " ++ viz.error ++
        "\n\nData: " ++ optStr r.answer) ≠ "" :=
      append_ne_empty_left _ _ (append_ne_empty_left _ _
        (append_ne_empty_left _ _ (by decide)))
    simp [prepareMessagesAsync, hqt, hs, hd, hv, Except.map, hne]




/-- C5 witness: concrete runs through all three absorbed-failure branches. -/
theorem C5_assembly_amended_witness :
    prepareMessagesAsync (.ok []) (some sqlFailStub) vizFailStub true []
        "how many employees" =
      .ok ⟨AzureMsg.mk "system"
            (systemContextPreamble ++ ("Database query failed: " ++ "db down")) ::
          ([] ++ [AzureMsg.mk "user" "how many employees"]), QueryType.SQL_QUERY, none,
          some sqlFailStub, (routeQuery "how many employees" true).needsVisualization⟩ ∧
    prepareMessagesAsync (.ok []) (some sqlFailStub) vizFailStub true [] "plot" =
      .ok ⟨AzureMsg.mk "system"
            (systemContextPreamble ++
              ("Could not retrieve data for visualization: " ++ "db down")) ::
          ([] ++ [AzureMsg.mk "user" "plot"]), QueryType.VISUALIZATION, none,
          some sqlFailStub, (routeQuery "plot" true).needsVisualization⟩ ∧
    prepareMessagesAsync (.ok []) (some sqlOkStub) vizFailStub true [] "plot" =
      .ok ⟨AzureMsg.mk "system"
            (systemContextPreamble ++
              ("Data retrieved but visualization failed: " ++ vizFailStub.error ++
                "\n\nData: " ++ optStr sqlOkStub.answer)) ::
          ([] ++ [AzureMsg.mk "user" "plot"]), QueryType.VISUALIZATION, none,
          some sqlOkStub, (routeQuery "plot" true).needsVisualization⟩ :=
  ⟨(C5_assembly_amended (.ok []) vizFailStub [] "how many employees" sqlFailStub "db down").1
      (by decide) rfl rfl,
    (C5_assembly_amended (.ok []) vizFailStub [] "plot" sqlFailStub "db down").2.1
      (by decide) rfl rfl,
    (C5_assembly_amended (.ok []) vizFailStub [] "plot" sqlOkStub "db down").2.2
      (by decide) rfl rfl rfl⟩

/-- C9: a chart payload is attached to the assembled bundle only when the
routing category is Visualization (hence only when it is Visualization or
Hybrid); whenever the routing decision is DocumentSearch (VECTOR_SEARCH),
DatabaseQuery (SQL_QUERY) or the fallback (UNKNOWN), the bundle carries no
chart. -/
theorem C9_chart_only_for_viz_routing
    (vs : Except String (List String)) (sa : Option SqlResult) (viz : VizResult)
    (hasDb : Bool) (hist : List AzureMsg) (q : String) (p : PrepResult)
    (h : prepareMessagesAsync vs sa viz hasDb hist q = .ok p) :
    (p.visualizationData ≠ none →
      p.queryType = QueryType.VISUALIZATION ∨ p.queryType = QueryType.HYBRID) ∧
    ((p.queryType = QueryType.VECTOR_SEARCH ∨ p.queryType = QueryType.SQL_QUERY ∨
       p.queryType = QueryType.UNKNOWN) → p.visualizationData = none) := by
  cases hqt : (routeQuery q hasDb).queryType with
  | VECTOR_SEARCH =>
    cases vs with
    | error e => simp [prepareMessagesAsync, hqt, Except.map] at h
    | ok docs =>
      simp [prepareMessagesAsync, hqt, Except.map] at h
      subst h; simp
  | SQL_QUERY =>
    cases sa with
    | none =>
      cases vs with
      | error e => simp [prepareMessagesAsync, hqt, Except.map] at h
      | ok docs =>
        simp [prepareMessagesAsync, hqt, Except.map] at h
        subst h; simp
    | some r =>
      cases hs : r.success <;>
        simp [prepareMessagesAsync, hqt, Except.map, hs] at h <;>
          subst h <;> simp
  | VISUALIZATION =>
    cases sa with
    | none =>
      cases vs with
      | error e => simp [prepareMessagesAsync, hqt, Except.map] at h
      | ok docs =>
        simp [prepareMessagesAsync, hqt, Except.map] at h
        subst h; simp
    | some r =>
      by_cases hc : r.success = true ∧ dataTruthy r.data = true
      · by_cases hv : viz.success = true
        · simp [prepareMessagesAsync, hqt, Except.map, hc, hv] at h
          subst h; simp
        · simp [prepareMessagesAsync, hqt, Except.map, hc, hv] at h
          subst h; simp
      · simp [prepareMessagesAsync, hqt, Except.map, hc] at h
        subst h; simp
  | HYBRID =>
    cases vs with
    | error e => simp [prepareMessagesAsync, hqt, Except.map] at h
    | ok docs =>
      simp [prepareMessagesAsync, hqt, Except.map] at h
      subst h; simp
  | UNKNOWN =>
    cases vs with
    | error e => simp [prepareMessagesAsync, hqt, Except.map] at h
    | ok docs =>
      simp [prepareMessagesAsync, hqt, Except.map] at h
      subst h; simp



/-- C9 witness: a concrete Visualization-routed run that does attach a
chart, discharging the hypothesis of the theorem. -/
theorem C9_chart_only_for_viz_routing_witness :
    (c9Bundle.visualizationData ≠ none →
      c9Bundle.queryType = QueryType.VISUALIZATION ∨
        c9Bundle.queryType = QueryType.HYBRID) ∧
    ((c9Bundle.queryType = QueryType.VECTOR_SEARCH ∨
       c9Bundle.queryType = QueryType.SQL_QUERY ∨
       c9Bundle.queryType = QueryType.UNKNOWN) → c9Bundle.visualizationData = none) :=
  C9_chart_only_for_viz_routing (.ok []) (some sqlOkStub) vizOkStub true [] "plot"
    c9Bundle rfl

end DBGenie
